import Mathlib

/-!
# Verification of the rtsp-simple-server path broker and stream pipeline

Shallow embedding of the core of `rtsp-simple-server` (Go), centred on:

* `internal/core/path.go` — the per-path state machine (publisher slot,
  reader set, on-demand lifecycle, describe resolution);
* `internal/core/rtsp_session.go` — the RTSP session's handling of
  authentication errors;
* `internal/formatprocessor/h264.go` — H.264 parameter-set extraction and
  access-unit remuxing;
* `internal/hls/muxer_variant_mpegts_segment.go` — the MPEG-TS HLS
  segment writer (PCR cadence and PTS/DTS offset).

Go values are modelled as follows: byte slices are `List Nat` (a `nil`
slice, where the distinction matters, is `Option`), interface values
carried in the path's `source` field are the inductive `SourceVal`,
`time.Timer`s are armed/disarmed booleans, and every side effect of a
handler (channel replies, `close()` calls, external commands) is an
explicit `PathEvent` in the handler's result.  Each handler of
`path.go`'s `run()` select loop becomes a pure function
`PathState → PathState × List PathEvent`.
-/

namespace RSS

/-- `pathOnDemandState` of path.go (lines 87-94). -/
inductive PathOnDemandState
  | initial
  | waitingReady
  | ready
  | closing
deriving DecidableEq, Repr

/-- `pathReaderState` of path.go (lines 80-85). -/
inductive PathReaderState
  | prePlay
  | play
deriving DecidableEq, Repr

/-- The value held in `path.source` (a Go interface): the `redirect`
sentinel `*sourceRedirect`, a static source (`sourceStatic`), or an
inbound publisher.  Distinct Go objects are distinguished by `id`. -/
inductive SourceVal
  | redirect
  | staticSource (id : Nat)
  | publisher (id : Nat)
deriving DecidableEq, Repr

/-- A `stream` (stream.go): created by `newStream(tracks)`.  Its internal
reader cohorts live in gortsplib / the stream object and are not part of
path state; only the track list identifies it here. -/
structure StreamVal where
  tracks : Nat
deriving DecidableEq, Repr

/-- The subset of `conf.PathConf` read by path.go's handlers. -/
structure PathConf where
  source : String
  sourceOnDemand : Bool
  disablePublisherOverride : Bool
  sourceRedirect : String
  fallback : String
  runOnDemand : String
  runOnReady : String
deriving DecidableEq, Repr

/-- The parts of `base.URL` used by `handleDescribe`'s fallback rewrite
(scheme, user info rendered as a string, host). -/
structure PathURL where
  scheme : String
  user : String
  host : String
deriving DecidableEq, Repr

/-- `base.URL.String()` for a URL assembled from scheme/user/host/path,
as used by the fallback rewrite in `handleDescribe`. -/
def urlString (u : PathURL) (path : String) : String :=
  u.scheme ++ "://" ++ (if u.user = "" then "" else u.user ++ "@") ++ u.host ++ path

/-- A queued `pathDescribeReq`; `rid` stands for its reply channel. -/
structure PathDescribeReq where
  rid : Nat
  url : PathURL
deriving DecidableEq, Repr

/-- A queued `pathReaderSetupPlayReq`; `rid` stands for its reply channel
and `author` for the requesting reader. -/
structure PathSetupPlayReq where
  rid : Nat
  author : Nat
deriving DecidableEq, Repr

/-- Errors carried in reply structs: `pathErrNoOnePublishing` keeps its
struct identity; every `fmt.Errorf` error is `generic` with its message. -/
inductive PathErrVal
  | noOnePublishing (pathName : String)
  | generic (msg : String)
deriving DecidableEq, Repr

/-- `pathDescribeRes` (path field omitted: `handleDescribe` never sets it). -/
structure PathDescribeRes where
  stream : Option StreamVal := none
  redirect : String := ""
  err : Option PathErrVal := none
deriving DecidableEq, Repr

/-- Common shape of `pathSourceStaticSetReadyRes`, `pathPublisherRecordRes`
and the stream/err part of `pathReaderSetupPlayRes`. -/
structure PathStreamRes where
  stream : Option StreamVal := none
  err : Option PathErrVal := none
deriving DecidableEq, Repr

/-- `pathPublisherAnnounceRes` (path field modelled by `err = none`). -/
structure PathAnnounceRes where
  err : Option PathErrVal := none
deriving DecidableEq, Repr

/-- Observable side effects of one handler run at the path's
serialization point: channel replies, `close()` calls on readers and
sources, source/external-command starts and stops, the
`parent.onPathSourceReady` callback, and the "closing existing
publisher" log line. -/
inductive PathEvent
  | describeRes (rid : Nat) (res : PathDescribeRes)
  | setupPlayRes (rid : Nat) (res : PathStreamRes)
  | staticSetReadyRes (res : PathStreamRes)
  | recordRes (res : PathStreamRes)
  | announceRes (res : PathAnnounceRes)
  | readerAccepted (author : Nat)
  | publisherAccepted (author : Nat) (tracks : Nat)
  | closeSource (src : SourceVal)
  | closeReader (r : Nat)
  | startStaticSource (id : Nat)
  | startOnDemandCmd
  | stopOnDemandCmd
  | startOnReadyCmd
  | stopOnReadyCmd
  | pathSourceReady
  | logClosingExistingPublisher
deriving DecidableEq, Repr

/-- The mutable state owned by one `path` task.  Timers are modelled by
their armed flag (`newEmptyTimer()` = disarmed); `onDemandCmd` and
`onReadyCmd` record whether the external command is running;
`nextSourceId` numbers the static-source objects created by
`staticSourceCreate`. -/
structure PathState where
  conf : PathConf
  name : String
  source : Option SourceVal
  sourceReady : Bool
  readers : List (Nat × PathReaderState)
  describeRequests : List PathDescribeReq
  setupPlayRequests : List PathSetupPlayReq
  stream : Option StreamVal
  onDemandCmd : Bool
  onReadyCmd : Bool
  onDemandReadyTimerArmed : Bool
  onDemandCloseTimerArmed : Bool
  onDemandState : PathOnDemandState
  nextSourceId : Nat
deriving DecidableEq, Repr

/-- Lookup in the `readers` map (Go `pa.readers[r]`). -/
def readersLookup : List (Nat × PathReaderState) → Nat → Option PathReaderState
  | [], _ => none
  | (k, v) :: rest, r => if k = r then some v else readersLookup rest r

/-- Deletion from the `readers` map (Go `delete(pa.readers, r)`). -/
def readersErase : List (Nat × PathReaderState) → Nat → List (Nat × PathReaderState)
  | [], _ => []
  | (k, v) :: rest, r =>
    if k = r then readersErase rest r else (k, v) :: readersErase rest r

/-- Insertion/update in the `readers` map (Go `pa.readers[r] = state`). -/
def readersSet : List (Nat × PathReaderState) → Nat → PathReaderState → List (Nat × PathReaderState)
  | [], r, st => [(r, st)]
  | (k, v) :: rest, r, st =>
    if k = r then (k, st) :: rest else (k, v) :: readersSet rest r st

/-- Go `strings.HasPrefix`, computed on the character lists (the
built-in `String.startsWith` does not reduce in the kernel). -/
def strStarts (s pre : String) : Bool := pre.data.isPrefixOf s.data

/-- `path.hasStaticSource` (path.go lines 508-514). -/
def hasStaticSource (c : PathConf) : Bool :=
  strStarts c.source "rtsp://" ||
  strStarts c.source "rtsps://" ||
  strStarts c.source "rtmp://" ||
  strStarts c.source "http://" ||
  strStarts c.source "https://"

/-- `path.isOnDemand` (path.go lines 516-518). -/
def isOnDemand (c : PathConf) : Bool :=
  (hasStaticSource c && c.sourceOnDemand) || c.runOnDemand ≠ ""

/-- `path.staticSourceCreate` (path.go lines 659-692): allocates the
matching static source object; the switch has no default case, so a
source string with none of the prefixes leaves `pa.source` untouched. -/
def staticSourceCreate (s : PathState) : PathState × List PathEvent :=
  if hasStaticSource s.conf then
    ({ s with source := some (.staticSource s.nextSourceId),
              nextSourceId := s.nextSourceId + 1 },
     [.startStaticSource s.nextSourceId])
  else (s, [])

/-- `path.onDemandScheduleClose` (path.go lines 557-566). -/
def onDemandScheduleClose (s : PathState) : PathState :=
  { s with onDemandCloseTimerArmed := true, onDemandState := .closing }

/-- `path.onDemandStartSource` (path.go lines 536-555). -/
def onDemandStartSource (s : PathState) : PathState × List PathEvent :=
  let s := { s with onDemandReadyTimerArmed := false }
  if hasStaticSource s.conf then
    let r := staticSourceCreate s
    ({ r.1 with onDemandReadyTimerArmed := true, onDemandState := .waitingReady }, r.2)
  else
    ({ s with onDemandCmd := true, onDemandReadyTimerArmed := true,
              onDemandState := .waitingReady },
     [.startOnDemandCmd])

/-- `path.sourceSetNotReady` (path.go lines 639-657): closes and removes
every reader, stops the `runOnReady` command, clears `sourceReady` and
closes/drops the stream. -/
def sourceSetNotReady (s : PathState) : PathState × List PathEvent :=
  let closeEvs := s.readers.map (fun rv => PathEvent.closeReader rv.1)
  let cmdEvs := if s.onReadyCmd then [PathEvent.stopOnReadyCmd] else []
  ({ s with readers := [], onReadyCmd := false, sourceReady := false, stream := none },
   closeEvs ++ cmdEvs)

/-- `path.handleReaderSetupPlayPost` (path.go lines 842-855). -/
def handleReaderSetupPlayPost (s : PathState) (req : PathSetupPlayReq) :
    PathState × List PathEvent :=
  let s := { s with readers := readersSet s.readers req.author .prePlay }
  let s :=
    if isOnDemand s.conf ∧ s.onDemandState = .closing then
      { s with onDemandState := .ready, onDemandCloseTimerArmed := false }
    else s
  (s, [.setupPlayRes req.rid { stream := s.stream, err := none }])

/-- The loop `for _, req := range pa.setupPlayRequests { pa.handleReaderSetupPlayPost(req) }`
inside `sourceSetReady`. -/
def drainSetupRequests : PathState → List PathSetupPlayReq → PathState × List PathEvent
  | s, [] => (s, [])
  | s, req :: rest =>
    let r1 := handleReaderSetupPlayPost s req
    let r2 := drainSetupRequests r1.1 rest
    (r2.1, r1.2 ++ r2.2)

/-- `path.sourceSetReady` (path.go lines 597-637). -/
def sourceSetReady (s : PathState) (tracks : Nat) : PathState × List PathEvent :=
  let s := { s with sourceReady := true, stream := some ⟨tracks⟩ }
  let r1 : PathState × List PathEvent :=
    if isOnDemand s.conf then
      let s := { s with onDemandReadyTimerArmed := false }
      let descEvs := s.describeRequests.map
        (fun req => PathEvent.describeRes req.rid { stream := s.stream })
      let s := { s with describeRequests := [] }
      let rd := drainSetupRequests s s.setupPlayRequests
      let s := { rd.1 with setupPlayRequests := [] }
      let s :=
        if s.readers.length > 0 then { s with onDemandState := .ready }
        else onDemandScheduleClose s
      (s, descEvs ++ rd.2)
    else (s, [])
  let r2 : PathState × List PathEvent :=
    if r1.1.conf.runOnReady ≠ "" then
      ({ r1.1 with onReadyCmd := true }, [PathEvent.startOnReadyCmd])
    else (r1.1, [])
  (r2.1, r1.2 ++ [PathEvent.pathSourceReady] ++ r2.2)

/-- `path.onDemandCloseSource` (path.go lines 568-595).  The nested
`doPublisherRemove()` call in the non-static branch runs with
`onDemandState` already reset to `Initial` (see the Go comment "set
state before doPublisherRemove()"), so it reduces to
`sourceSetNotReady` (when ready) plus `pa.source = nil`; it is inlined
here in that reduced form.  The Go type assertions
`pa.source.(sourceStatic)` / `pa.source.(publisher)` panic on a nil or
mistyped source; those states are unreachable and modelled as emitting
no close event. -/
def onDemandCloseSource (s : PathState) : PathState × List PathEvent :=
  let s :=
    if s.onDemandState = .closing then { s with onDemandCloseTimerArmed := false } else s
  let s := { s with onDemandState := .initial }
  if hasStaticSource s.conf then
    let r := if s.sourceReady then sourceSetNotReady s else (s, [])
    let closeEvs := match s.source with
      | some src => [PathEvent.closeSource src]
      | none => []
    ({ r.1 with source := none }, r.2 ++ closeEvs)
  else
    let r1 : PathState × List PathEvent :=
      match s.source with
      | some src =>
        let r2 := if s.sourceReady then sourceSetNotReady s else (s, [])
        ({ r2.1 with source := none }, PathEvent.closeSource src :: r2.2)
      | none => (s, [])
    if r1.1.onDemandCmd then
      ({ r1.1 with onDemandCmd := false }, r1.2 ++ [PathEvent.stopOnDemandCmd])
    else (r1.1, r1.2)

/-- `path.doReaderRemove` (path.go lines 694-702); the
`pa.stream.readerRemove(r)` call touches only the stream object's
internal cohorts, not path state. -/
def doReaderRemove (s : PathState) (r : Nat) : PathState :=
  { s with readers := readersErase s.readers r }

/-- `path.doPublisherRemove` (path.go lines 704-714). -/
def doPublisherRemove (s : PathState) : PathState × List PathEvent :=
  let r : PathState × List PathEvent :=
    if s.sourceReady then
      if isOnDemand s.conf ∧ s.onDemandState ≠ .initial then onDemandCloseSource s
      else sourceSetNotReady s
    else (s, [])
  ({ r.1 with source := none }, r.2)

/-- `path.handleDescribe` (path.go lines 716-757). -/
def handleDescribe (s : PathState) (req : PathDescribeReq) : PathState × List PathEvent :=
  if s.source = some .redirect then
    (s, [.describeRes req.rid { redirect := s.conf.sourceRedirect }])
  else if s.sourceReady then
    (s, [.describeRes req.rid { stream := s.stream }])
  else if isOnDemand s.conf then
    let r : PathState × List PathEvent :=
      if s.onDemandState = .initial then onDemandStartSource s else (s, [])
    ({ r.1 with describeRequests := r.1.describeRequests ++ [req] }, r.2)
  else if s.conf.fallback ≠ "" then
    let fallbackURL :=
      if strStarts s.conf.fallback "/" then urlString req.url s.conf.fallback
      else s.conf.fallback
    (s, [.describeRes req.rid { redirect := fallbackURL }])
  else
    (s, [.describeRes req.rid { err := some (.noOnePublishing s.name) }])

/-- `path.handlePublisherRemove` (path.go lines 759-764). -/
def handlePublisherRemove (s : PathState) (author : Nat) : PathState × List PathEvent :=
  if s.source = some (.publisher author) then doPublisherRemove s else (s, [])

/-- `path.handlePublisherAnnounce` (path.go lines 766-786). -/
def handlePublisherAnnounce (s : PathState) (author : Nat) : PathState × List PathEvent :=
  match s.source with
  | some src =>
    if hasStaticSource s.conf then
      (s, [.announceRes { err := some (.generic
            ("path '" ++ s.name ++ "' is assigned to a static source")) }])
    else if s.conf.disablePublisherOverride then
      (s, [.announceRes { err := some (.generic
            ("another publisher is already publishing to path '" ++ s.name ++ "'")) }])
    else
      let r := doPublisherRemove s
      ({ r.1 with source := some (.publisher author) },
       [PathEvent.logClosingExistingPublisher, PathEvent.closeSource src] ++ r.2 ++
       [PathEvent.announceRes { err := none }])
  | none =>
    ({ s with source := some (.publisher author) }, [.announceRes { err := none }])

/-- `path.handlePublisherRecord` (path.go lines 788-799). -/
def handlePublisherRecord (s : PathState) (author tracks : Nat) : PathState × List PathEvent :=
  if s.source ≠ some (.publisher author) then
    (s, [.recordRes { err := some (.generic "publisher is not assigned to this path anymore") }])
  else
    let r := sourceSetReady s tracks
    (r.1, PathEvent.publisherAccepted author tracks :: r.2 ++
          [PathEvent.recordRes { stream := r.1.stream, err := none }])

/-- `path.handlePublisherPause` (path.go lines 801-810). -/
def handlePublisherPause (s : PathState) (author : Nat) : PathState × List PathEvent :=
  if s.source = some (.publisher author) ∧ s.sourceReady then
    if isOnDemand s.conf ∧ s.onDemandState ≠ .initial then onDemandCloseSource s
    else sourceSetNotReady s
  else (s, [])

/-- `path.handleReaderRemove` (path.go lines 812-823). -/
def handleReaderRemove (s : PathState) (author : Nat) : PathState × List PathEvent :=
  let s := if (readersLookup s.readers author).isSome then doReaderRemove s author else s
  let s :=
    if isOnDemand s.conf ∧ s.readers.length = 0 ∧ s.onDemandState = .ready then
      onDemandScheduleClose s
    else s
  (s, [])

/-- `path.handleReaderSetupPlay` (path.go lines 825-840). -/
def handleReaderSetupPlay (s : PathState) (req : PathSetupPlayReq) :
    PathState × List PathEvent :=
  if s.sourceReady then
    handleReaderSetupPlayPost s req
  else if isOnDemand s.conf then
    let r : PathState × List PathEvent :=
      if s.onDemandState = .initial then onDemandStartSource s else (s, [])
    ({ r.1 with setupPlayRequests := r.1.setupPlayRequests ++ [req] }, r.2)
  else
    (s, [.setupPlayRes req.rid { err := some (.noOnePublishing s.name) }])

/-- `path.handleReaderPlay` (path.go lines 857-865); `stream.readerAdd`
only touches the stream object's cohorts. -/
def handleReaderPlay (s : PathState) (author : Nat) : PathState × List PathEvent :=
  ({ s with readers := readersSet s.readers author .play }, [.readerAccepted author])

/-- `path.handleReaderPause` (path.go lines 867-873). -/
def handleReaderPause (s : PathState) (author : Nat) : PathState × List PathEvent :=
  if readersLookup s.readers author = some .play then
    ({ s with readers := readersSet s.readers author .prePlay }, [])
  else (s, [])

/-- The `<-pa.onDemandReadyTimer.C` case of `path.run` (path.go lines
363-378): every queued describe and setup/play gets the timeout error,
both queues are cleared, then `onDemandCloseSource`. -/
def handleOnDemandReadyTimerFire (s : PathState) : PathState × List PathEvent :=
  let descEvs := s.describeRequests.map
    (fun req => PathEvent.describeRes req.rid
      { err := some (.generic ("source of path '" ++ s.name ++ "' has timed out")) })
  let s := { s with describeRequests := [] }
  let setupEvs := s.setupPlayRequests.map
    (fun req => PathEvent.setupPlayRes req.rid
      { err := some (.generic ("source of path '" ++ s.name ++ "' has timed out")) })
  let s := { s with setupPlayRequests := [] }
  let r := onDemandCloseSource s
  (r.1, descEvs ++ setupEvs ++ r.2)

/-- The `<-pa.onDemandCloseTimer.C` case of `path.run` (path.go lines 380-385). -/
def handleOnDemandCloseTimerFire (s : PathState) : PathState × List PathEvent :=
  onDemandCloseSource s

/-- The `req := <-pa.sourceStaticSetReady` case of `path.run`
(path.go lines 387-393). -/
def handleSourceStaticSetReady (s : PathState) (srcId tracks : Nat) :
    PathState × List PathEvent :=
  if s.source = some (.staticSource srcId) then
    let r := sourceSetReady s tracks
    (r.1, r.2 ++ [PathEvent.staticSetReadyRes { stream := r.1.stream, err := none }])
  else
    (s, [.staticSetReadyRes { err := some (.generic "terminated") }])

/-- The `req := <-pa.sourceStaticSetNotReady` case of `path.run`
(path.go lines 395-403). -/
def handleSourceStaticSetNotReady (s : PathState) (srcId : Nat) :
    PathState × List PathEvent :=
  if s.source = some (.staticSource srcId) then
    if isOnDemand s.conf ∧ s.onDemandState ≠ .initial then onDemandCloseSource s
    else sourceSetNotReady s
  else (s, [])

/-- One message consumed at the path's serialization point (one case of
`path.run`'s select, path.go lines 360-458). -/
inductive PathReq
  | onDemandReadyTimerFire
  | onDemandCloseTimerFire
  | sourceStaticSetReady (srcId : Nat) (tracks : Nat)
  | sourceStaticSetNotReady (srcId : Nat)
  | describe (req : PathDescribeReq)
  | publisherRemove (author : Nat)
  | publisherAnnounce (author : Nat)
  | publisherRecord (author : Nat) (tracks : Nat)
  | publisherPause (author : Nat)
  | readerRemove (author : Nat)
  | readerSetupPlay (req : PathSetupPlayReq)
  | readerPlay (author : Nat)
  | readerPause (author : Nat)
  | apiPathsList
deriving DecidableEq, Repr

/-- Dispatch of `path.run`'s select loop to the handlers
(`handleAPIPathsList` only snapshots state). -/
def pathStep (s : PathState) : PathReq → PathState × List PathEvent
  | .onDemandReadyTimerFire => handleOnDemandReadyTimerFire s
  | .onDemandCloseTimerFire => handleOnDemandCloseTimerFire s
  | .sourceStaticSetReady srcId tracks => handleSourceStaticSetReady s srcId tracks
  | .sourceStaticSetNotReady srcId => handleSourceStaticSetNotReady s srcId
  | .describe req => handleDescribe s req
  | .publisherRemove author => handlePublisherRemove s author
  | .publisherAnnounce author => handlePublisherAnnounce s author
  | .publisherRecord author tracks => handlePublisherRecord s author tracks
  | .publisherPause author => handlePublisherPause s author
  | .readerRemove author => handleReaderRemove s author
  | .readerSetupPlay req => handleReaderSetupPlay s req
  | .readerPlay author => handleReaderPlay s author
  | .readerPause author => handleReaderPause s author
  | .apiPathsList => (s, [])

/-- `newPath` plus the initialization at the top of `path.run`
(path.go lines 338-345): the redirect sentinel is installed for
`source: redirect`, and a non-on-demand static source is created
immediately. -/
def pathInit (c : PathConf) (name : String) : PathState × List PathEvent :=
  let base : PathState :=
    { conf := c, name := name, source := none, sourceReady := false,
      readers := [], describeRequests := [], setupPlayRequests := [],
      stream := none, onDemandCmd := false, onReadyCmd := false,
      onDemandReadyTimerArmed := false, onDemandCloseTimerArmed := false,
      onDemandState := .initial, nextSourceId := 0 }
  if c.source = "redirect" then
    ({ base with source := some .redirect }, [])
  else if ¬c.sourceOnDemand ∧ hasStaticSource base.conf then
    staticSourceCreate base
  else (base, [])

/-- Run a sequence of requests from a starting state. -/
def pathRun (s : PathState) : List PathReq → PathState
  | [] => s
  | r :: rest => pathRun (pathStep s r).1 rest

/-! ## H.264 format processor (`internal/formatprocessor/h264.go`)

Byte slices are `List Nat`; a Go slice that may be `nil` is an
`Option (List Nat)` (`bytes.Equal` nevertheless treats `nil` and empty
as equal). -/

/-- `h264.NALUType(b[0] & 0x1F)`: the NALU type of a NALU, from its
first byte (Go indexes `nalu[0]` without a length check; an empty NALU
panics there and is given type 0 here). -/
def naluType (nalu : List Nat) : Nat := nalu.headD 0 % 32

def naluTypeIDR : Nat := 5
def naluTypeSPS : Nat := 7
def naluTypePPS : Nat := 8
def naluTypeAUD : Nat := 9
def naluTypeSTAPA : Nat := 24

/-- The STAP-A scan loop of `rtpH264ExtractSPSPPS` (h264.go lines
29-63): walk `(size, nalu)` pairs, remembering the last SPS and PPS;
a break keeps what was found so far, a size overrun returns
`(nil, nil)`. -/
def stapaScan : List Nat → Option (List Nat) → Option (List Nat) →
    Option (List Nat) × Option (List Nat)
  | [], sps, pps => (sps, pps)
  | [_], sps, pps => (sps, pps)
  | b0 :: b1 :: rest, sps, pps =>
    let size := b0 * 256 + b1
    if size = 0 then (sps, pps)
    else if rest.length < size then (none, none)
    else
      let nalu := rest.take size
      let sps := if naluType nalu = naluTypeSPS then some nalu else sps
      let pps := if naluType nalu = naluTypePPS then some nalu else pps
      stapaScan (rest.drop size) sps pps
termination_by pl _ _ => pl.length
decreasing_by
  simp
  omega

/-- `rtpH264ExtractSPSPPS` (h264.go lines 14-68): recover SPS/PPS from
an RTP payload without decoding — a single SPS NALU, a single PPS NALU,
or a STAP-A aggregate; every other payload type yields nothing. -/
def rtpH264ExtractSPSPPS (payload : List Nat) : Option (List Nat) × Option (List Nat) :=
  match payload with
  | [] => (none, none)
  | b :: _ =>
    let typ := b % 32
    if typ = naluTypeSPS then (some payload, none)
    else if typ = naluTypePPS then (none, some payload)
    else if typ = naluTypeSTAPA then stapaScan payload.tail none none
    else (none, none)

/-- Go `bytes.Equal` of a recovered (non-nil) slice against the stored,
possibly-nil parameter (`bytes.Equal` treats nil and empty as equal). -/
def bytesEqual (a : List Nat) (b : Option (List Nat)) : Bool := a == b.getD []

/-- `updateTrackParametersFromRTPPacket` (h264.go lines 113-134), as a
function from the stored `(SPS, PPS)` and the packet payload to the new
stored pair (`SafeSetParams` writes both fields). -/
def updateTrackParametersFromRTPPacket (fmtSPS fmtPPS : Option (List Nat))
    (payload : List Nat) : Option (List Nat) × Option (List Nat) :=
  let r := rtpH264ExtractSPSPPS payload
  let update :=
    (match r.1 with | some sps => !bytesEqual sps fmtSPS | none => false) ||
    (match r.2 with | some pps => !bytesEqual pps fmtPPS | none => false)
  if update then
    (match r.1 with | some sps => some sps | none => fmtSPS,
     match r.2 with | some pps => some pps | none => fmtPPS)
  else (fmtSPS, fmtPPS)

/-- The per-NALU step of the first pass of `remuxAccessUnit` (h264.go
lines 165-188): accumulate the output count `n` and the
`addParameters` flag. -/
def remuxCountStep (spsPpsPresent : Bool) (acc : Nat × Bool) (nalu : List Nat) : Nat × Bool :=
  let typ := naluType nalu
  if typ = naluTypeSPS ∨ typ = naluTypePPS then acc
  else if typ = naluTypeAUD then acc
  else if typ = naluTypeIDR then
    if acc.2 then (acc.1 + 1, acc.2)
    else ((if spsPpsPresent then acc.1 + 2 else acc.1) + 1, true)
  else (acc.1 + 1, acc.2)

/-- The first pass of `remuxAccessUnit`. -/
def remuxCount (spsPpsPresent : Bool) (nalus : List (List Nat)) : Nat × Bool :=
  nalus.foldl (remuxCountStep spsPpsPresent) (0, false)

/-- Whether the second pass of `remuxAccessUnit` (h264.go lines
203-216) keeps a NALU: SPS, PPS and access-unit delimiters are dropped. -/
def remuxKeep (nalu : List Nat) : Bool :=
  let typ := naluType nalu
  if typ = naluTypeSPS ∨ typ = naluTypePPS then false
  else if typ = naluTypeAUD then false
  else true

/-- `remuxAccessUnit` (h264.go lines 164-219): count pass, `nil` result
when the count is zero, otherwise the stored SPS and PPS (when the
access unit holds an IDR and both are known) followed by the kept
NALUs in input order. -/
def remuxAccessUnit (fmtSPS fmtPPS : Option (List Nat)) (nalus : List (List Nat)) :
    List (List Nat) :=
  let c := remuxCount (fmtSPS.isSome && fmtPPS.isSome) nalus
  if c.1 = 0 then []
  else
    (if c.2 && fmtSPS.isSome && fmtPPS.isSome then [fmtSPS.getD [], fmtPPS.getD []]
     else []) ++ nalus.filter remuxKeep

/-- Whether an access unit contains an IDR NALU. -/
def containsIDR (nalus : List (List Nat)) : Bool :=
  nalus.any (fun n => naluType n = naluTypeIDR)

theorem remuxCount_foldl (b : Bool) (nalus : List (List Nat)) :
    ∀ (n0 : Nat) (f0 : Bool),
      nalus.foldl (remuxCountStep b) (n0, f0) =
        (n0 + (nalus.filter remuxKeep).length +
          (if b && !f0 && containsIDR nalus then 2 else 0),
         f0 || containsIDR nalus) := by
  induction nalus with
  | nil =>
    intro n0 f0
    simp [containsIDR]
  | cons nalu rest ih =>
    intro n0 f0
    have hstep : remuxCountStep b (n0, f0) nalu =
        if naluType nalu = naluTypeSPS ∨ naluType nalu = naluTypePPS then (n0, f0)
        else if naluType nalu = naluTypeAUD then (n0, f0)
        else if naluType nalu = naluTypeIDR then
          if f0 then (n0 + 1, f0)
          else ((if b then n0 + 2 else n0) + 1, true)
        else (n0 + 1, f0) := rfl
    by_cases h1 : naluType nalu = naluTypeSPS ∨ naluType nalu = naluTypePPS
    · have hk : remuxKeep nalu = false := by simp [remuxKeep, h1]
      have hi : ¬naluType nalu = naluTypeIDR := by
        rcases h1 with h | h <;>
          simp only [naluTypeSPS, naluTypePPS] at h <;>
          simp [h, naluTypeIDR]
      simp only [List.foldl_cons, hstep, if_pos h1]
      rw [ih]
      simp [containsIDR, hk, hi]
    · by_cases h2 : naluType nalu = naluTypeAUD
      · have hk : remuxKeep nalu = false := by simp [remuxKeep, h1, h2]
        have hi : ¬naluType nalu = naluTypeIDR := by
          simp only [naluTypeAUD] at h2
          simp [h2, naluTypeIDR]
        simp only [List.foldl_cons, hstep, if_neg h1, if_pos h2]
        rw [ih]
        simp [containsIDR, hk, hi]
      · have hk : remuxKeep nalu = true := by simp [remuxKeep, h1, h2]
        by_cases h3 : naluType nalu = naluTypeIDR
        · by_cases hf : f0
          · simp only [List.foldl_cons, hstep, if_neg h1, if_neg h2, if_pos h3, if_pos hf]
            rw [ih]
            simp [containsIDR, hk, h3, hf]
            omega
          · simp only [List.foldl_cons, hstep, if_neg h1, if_neg h2, if_pos h3, if_neg hf]
            rw [ih]
            simp only [Bool.not_eq_true] at hf
            subst hf
            simp [containsIDR, hk, h3]
            cases b <;> simp <;> omega
        · simp only [List.foldl_cons, hstep, if_neg h1, if_neg h2, if_neg h3]
          rw [ih]
          simp [containsIDR, hk, h3]
          omega

theorem filter_remuxKeep_of_containsIDR (nalus : List (List Nat)) :
    containsIDR nalus = true → nalus.filter remuxKeep ≠ [] := by
  intro h
  simp only [containsIDR, List.any_eq_true] at h
  obtain ⟨n, hmem, hidr⟩ := h
  have hk : remuxKeep n = true := by
    simp only [decide_eq_true_eq] at hidr
    simp [remuxKeep, hidr, naluTypeIDR, naluTypeSPS, naluTypePPS, naluTypeAUD]
  intro hempty
  have : n ∈ nalus.filter remuxKeep := List.mem_filter.mpr ⟨hmem, hk⟩
  rw [hempty] at this
  exact absurd this (List.not_mem_nil n)

/-- **C7**: remuxing an H.264 access unit removes every SPS, PPS and
access-unit-delimiter NALU, keeps the remaining NALUs in their input
order, and, exactly when the unit contains at least one IDR NALU and
the stored SPS and PPS are both known, prepends the stored SPS and PPS
once, in that order, at the front. -/
theorem c7_remux_access_unit (fmtSPS fmtPPS : Option (List Nat))
    (nalus : List (List Nat)) (_hne : ∀ n ∈ nalus, n ≠ []) :
    remuxAccessUnit fmtSPS fmtPPS nalus =
      (if containsIDR nalus && fmtSPS.isSome && fmtPPS.isSome then
        [fmtSPS.getD [], fmtPPS.getD []]
       else []) ++ nalus.filter remuxKeep := by
  have hc := remuxCount_foldl (fmtSPS.isSome && fmtPPS.isSome) nalus 0 false
  have hc1 := congrArg Prod.fst hc
  have hc2 := congrArg Prod.snd hc
  simp only at hc1 hc2
  simp only [remuxAccessUnit, remuxCount, hc1, hc2]
  by_cases hidr : containsIDR nalus = true
  · have hfilter := filter_remuxKeep_of_containsIDR nalus hidr
    have hlen : (nalus.filter remuxKeep).length ≠ 0 := by
      simpa [List.length_eq_zero] using hfilter
    rw [if_neg ?hcond]
    case hcond =>
      intro hzero
      apply hlen
      omega
    simp [hidr]
  · simp only [Bool.not_eq_true] at hidr
    simp only [hidr, Bool.and_false, Bool.false_and, Bool.or_false,
      Bool.and_true, if_false]
    by_cases hlen : (nalus.filter remuxKeep).length = 0
    · have hf : nalus.filter remuxKeep = [] := List.length_eq_zero.mp hlen
      simp [hf]
    · rw [if_neg ?hcond2]
      case hcond2 =>
        intro hzero
        apply hlen
        omega

/-- A concrete access unit: AUD, SPS, PPS, IDR slice, non-IDR slice. -/
def exampleAU : List (List Nat) :=
  [[9, 240], [103, 100, 0, 12], [104, 238, 60, 128], [101, 1, 2], [65, 3, 4]]

/-- **C7, witness**: the remux theorem at `exampleAU` with stored
parameters: output is stored SPS, stored PPS, then the IDR and non-IDR
slices, with AUD and in-band SPS/PPS gone. -/
theorem c7_remux_access_unit_witness :
    remuxAccessUnit (some [103, 77]) (some [104, 238]) exampleAU =
      [[103, 77], [104, 238], [101, 1, 2], [65, 3, 4]] := by
  have h := c7_remux_access_unit (some [103, 77]) (some [104, 238]) exampleAU
    (by decide)
  rw [h]
  decide

/-- A well-formed STAP-A body: each aggregated NALU preceded by its
16-bit big-endian size. -/
def stapaEncode : List (List Nat) → List Nat
  | [] => []
  | n :: rest => n.length / 256 :: n.length % 256 :: (n ++ stapaEncode rest)

/-- The last NALU of type `t` in a list, starting from `acc` (how the
STAP-A scan accumulates SPS/PPS). -/
def lastOfType (t : Nat) (nalus : List (List Nat)) (acc : Option (List Nat)) :
    Option (List Nat) :=
  nalus.foldl (fun a n => if naluType n = t then some n else a) acc

theorem stapaScan_encode (nalus : List (List Nat)) :
    ∀ (sps pps : Option (List Nat)), (∀ n ∈ nalus, n ≠ []) →
      stapaScan (stapaEncode nalus) sps pps =
        (lastOfType naluTypeSPS nalus sps, lastOfType naluTypePPS nalus pps) := by
  induction nalus with
  | nil => intro sps pps _; simp [stapaEncode, stapaScan, lastOfType]
  | cons n rest ih =>
    intro sps pps hne
    have hn : n ≠ [] := hne n (by simp)
    have hlen : ¬n.length = 0 := by simpa [List.length_eq_zero] using hn
    have hsize : n.length / 256 * 256 + n.length % 256 = n.length := by omega
    show stapaScan (n.length / 256 :: n.length % 256 :: (n ++ stapaEncode rest)) sps pps = _
    rw [stapaScan]
    simp only [hsize]
    rw [if_neg hlen]
    rw [if_neg (by simp [List.length_append])]
    rw [List.take_left, List.drop_left]
    rw [ih _ _ (fun m hm => hne m (by simp [hm]))]
    rfl

/-- **C8, counterexample**: an FU-A fragmentation unit (payload type
28, FU header carrying an SPS start fragment).  `rtpH264ExtractSPSPPS`
recovers nothing from it and the stored track parameters are left
untouched, refuting the claim's FU-A case. -/
def fuaSPSPayload : List Nat := [124, 135, 103, 100, 0, 12, 172]

theorem c8_counterexample :
    fuaSPSPayload.headD 0 % 32 = 28 ∧
    rtpH264ExtractSPSPPS fuaSPSPayload = (none, none) ∧
    updateTrackParametersFromRTPPacket (some [103, 66]) (some [104, 238]) fuaSPSPayload =
      (some [103, 66], some [104, 238]) := by decide

/-- **C8, amended**: the format processor recovers SPS/PPS that arrive
as a single NAL unit or inside a STAP-A aggregate (taking the last of
each in the aggregate) and updates the stored parameters whenever a
recovered parameter set differs from the stored one; FU-A
fragmentation units (type 28) yield no recovery and no update. -/
theorem c8_sps_pps_recovery (b : Nat) (rest : List Nat)
    (fmtSPS fmtPPS : Option (List Nat)) (nalus : List (List Nat)) (payload : List Nat) :
    (b % 32 = naluTypeSPS →
      rtpH264ExtractSPSPPS (b :: rest) = (some (b :: rest), none)) ∧
    (b % 32 = naluTypePPS →
      rtpH264ExtractSPSPPS (b :: rest) = (none, some (b :: rest))) ∧
    (b % 32 = naluTypeSTAPA → (∀ n ∈ nalus, n ≠ []) →
      rtpH264ExtractSPSPPS (b :: stapaEncode nalus) =
        (lastOfType naluTypeSPS nalus none, lastOfType naluTypePPS nalus none)) ∧
    (b % 32 = 28 →
      rtpH264ExtractSPSPPS (b :: rest) = (none, none) ∧
      updateTrackParametersFromRTPPacket fmtSPS fmtPPS (b :: rest) = (fmtSPS, fmtPPS)) ∧
    (∀ sps, rtpH264ExtractSPSPPS payload = (some sps, none) →
      bytesEqual sps fmtSPS = false →
      updateTrackParametersFromRTPPacket fmtSPS fmtPPS payload = (some sps, fmtPPS)) ∧
    (∀ pps, rtpH264ExtractSPSPPS payload = (none, some pps) →
      bytesEqual pps fmtPPS = false →
      updateTrackParametersFromRTPPacket fmtSPS fmtPPS payload = (fmtSPS, some pps)) ∧
    (∀ sps pps, rtpH264ExtractSPSPPS payload = (some sps, some pps) →
      bytesEqual sps fmtSPS = false ∨ bytesEqual pps fmtPPS = false →
      updateTrackParametersFromRTPPacket fmtSPS fmtPPS payload = (some sps, some pps)) := by
  refine ⟨?_, ?_, ?_, ?_, ?_, ?_, ?_⟩
  · intro h
    simp [rtpH264ExtractSPSPPS, h]
  · intro h
    simp [rtpH264ExtractSPSPPS, h, naluTypeSPS, naluTypePPS]
  · intro h hne
    have hscan := stapaScan_encode nalus none none hne
    simp [rtpH264ExtractSPSPPS, h, naluTypeSPS, naluTypePPS, naluTypeSTAPA, hscan]
  · intro h
    have hex : rtpH264ExtractSPSPPS (b :: rest) = (none, none) := by
      simp [rtpH264ExtractSPSPPS, h, naluTypeSPS, naluTypePPS, naluTypeSTAPA]
    refine ⟨hex, ?_⟩
    simp [updateTrackParametersFromRTPPacket, hex]
  · intro sps hex hdiff
    simp [updateTrackParametersFromRTPPacket, hex, hdiff]
  · intro pps hex hdiff
    simp [updateTrackParametersFromRTPPacket, hex, hdiff]
  · intro sps pps hex hdiff
    rcases hdiff with h | h <;>
      simp [updateTrackParametersFromRTPPacket, hex, h]

/-- **C8, witness**: recovery and update at concrete packets — a bare
SPS NALU, a bare PPS NALU, a STAP-A aggregating an SPS, a PPS and an
SEI, an FU-A (no recovery, no update), and an update from a bare SPS
differing from the stored one. -/
theorem c8_sps_pps_recovery_witness :
    rtpH264ExtractSPSPPS [103, 100, 0, 12] = (some [103, 100, 0, 12], none) ∧
    rtpH264ExtractSPSPPS [104, 238, 60] = (none, some [104, 238, 60]) ∧
    rtpH264ExtractSPSPPS (24 :: stapaEncode [[103, 1], [104, 2], [6, 5]]) =
      (some [103, 1], some [104, 2]) ∧
    rtpH264ExtractSPSPPS fuaSPSPayload = (none, none) ∧
    updateTrackParametersFromRTPPacket (some [103, 66]) (some [104, 238]) fuaSPSPayload =
      (some [103, 66], some [104, 238]) ∧
    updateTrackParametersFromRTPPacket (some [103, 66]) (some [104, 238]) [103, 100, 0, 12] =
      (some [103, 100, 0, 12], some [104, 238]) := by
  have h1 := (c8_sps_pps_recovery 103 [100, 0, 12] none none [] []).1 (by decide)
  have h2 := (c8_sps_pps_recovery 104 [238, 60] none none [] []).2.1 (by decide)
  have h3 := (c8_sps_pps_recovery 24 [] none none [[103, 1], [104, 2], [6, 5]] []).2.2.1
    (by decide) (by decide)
  have h4 := (c8_sps_pps_recovery 124 [135, 103, 100, 0, 12, 172]
    (some [103, 66]) (some [104, 238]) [] []).2.2.2.1 (by decide)
  have h5 := (c8_sps_pps_recovery 0 [] (some [103, 66]) (some [104, 238]) []
    [103, 100, 0, 12]).2.2.2.2.1 [103, 100, 0, 12] h1 (by decide)
  refine ⟨h1, h2, ?_, h4.1, h4.2, h5⟩
  rw [h3]
  decide

/-! ## RTSP session authentication-error handling
(`internal/core/rtsp_session.go`) -/

/-- `base.Response`, reduced to its status code. -/
structure RTSPResponse where
  statusCode : Nat
deriving DecidableEq, Repr

/-- `pauseAfterAuthError` (rtsp_session.go lines 18-20): 2 seconds, in
nanoseconds (the unit of Go `time.Duration`). -/
def pauseAfterAuthError : Nat := 2 * 1000000000

/-- The two authentication-error values of path.go
(`pathErrAuthNotCritical`, `pathErrAuthCritical`), each carrying the
response prepared by the authenticator. -/
inductive SessionAuthErr
  | notCritical (message : String) (response : RTSPResponse)
  | critical (message : String) (response : RTSPResponse)
deriving DecidableEq, Repr

/-- What a session handler does with an authentication error: how long
it sleeps before answering (`<-time.After(...)`), the response it
returns, and the error handed back to gortsplib — a non-nil error
makes gortsplib close the connection. -/
structure AuthErrOutcome where
  delayNs : Nat
  response : RTSPResponse
  closeErr : Option String
deriving DecidableEq, Repr

/-- The auth-error dispatch of `rtspSession.onAnnounce`
(rtsp_session.go lines 168-185): non-critical → reply immediately with
the prepared response and a nil error; critical → sleep
`pauseAfterAuthError`, then return the prepared response together with
a non-nil error. -/
def onAnnounceAuthError : SessionAuthErr → AuthErrOutcome
  | .notCritical _ resp => { delayNs := 0, response := resp, closeErr := none }
  | .critical msg resp =>
    { delayNs := pauseAfterAuthError, response := resp, closeErr := some msg }

/-- The identical dispatch in `rtspSession.onSetup` (rtsp_session.go
lines 227-248). -/
def onSetupAuthError : SessionAuthErr → AuthErrOutcome
  | .notCritical _ resp => { delayNs := 0, response := resp, closeErr := none }
  | .critical msg resp =>
    { delayNs := pauseAfterAuthError, response := resp, closeErr := some msg }

/-- Modelled from the spec: `rtspConn.authenticate` is not among the
sources (only its RTMP counterpart is); per the spec it classifies
missing credentials as non-critical and wrong credentials or an
IP-list rejection as critical, preparing a 401 response either way. -/
inductive AuthFailureCause
  | missingCredentials
  | wrongCredentials
  | ipDenied
deriving DecidableEq, Repr

/-- Modelled from the spec: the error value `rtspConn.authenticate`
returns for each failure cause (401 with a fresh challenge for missing
credentials; 401 for wrong credentials and IP denials). -/
def classifyAuthFailure : AuthFailureCause → SessionAuthErr
  | .missingCredentials => .notCritical "authentication requested" ⟨401⟩
  | .wrongCredentials => .critical "invalid credentials" ⟨401⟩
  | .ipDenied => .critical "IP not allowed" ⟨401⟩

/-- **C6**: for every RTSP announce or setup whose authentication
fails, the session replies 401; with missing credentials (non-critical)
it replies immediately and keeps the connection open, while with wrong
credentials or an IP denial (critical) it sleeps exactly
`pauseAfterAuthError` = 2 s before returning the response together
with a connection-closing error. -/
theorem c6_auth_error_handling (cause : AuthFailureCause) :
    onAnnounceAuthError (classifyAuthFailure cause) =
      onSetupAuthError (classifyAuthFailure cause) ∧
    (onAnnounceAuthError (classifyAuthFailure cause)).response.statusCode = 401 ∧
    (onAnnounceAuthError (classifyAuthFailure cause)).delayNs =
      (if cause = .missingCredentials then 0 else pauseAfterAuthError) ∧
    ((onAnnounceAuthError (classifyAuthFailure cause)).closeErr = none ↔
      cause = .missingCredentials) ∧
    pauseAfterAuthError = 2 * 1000000000 := by
  cases cause <;>
    simp [classifyAuthFailure, onAnnounceAuthError, onSetupAuthError,
      pauseAfterAuthError]

/-! ## HLS MPEG-TS segment writer
(`internal/hls/muxer_variant_mpegts_segment.go`) -/

/-- `pcrOffset` (lines 16-19): 500 ms, in nanoseconds. -/
def pcrOffset : Int := 500 * 1000000

/-- `int64(d.Seconds() * 90000)` for a duration of `ns` nanoseconds:
the 90 kHz clock base, computed exactly over ℚ with Go's
truncation-toward-zero (float64 rounding is not modelled). -/
def base90kHz (ns : Int) : Int := Int.tdiv (ns * 90000) 1000000000

/-- The PES-level output of one `writeH264` call: the adaptation
field's PCR, and the PES optional header's PTS/DTS, in 90 kHz units. -/
structure TSPesHeader where
  hasPCR : Bool
  pcr : Option Int
  ptsBase : Int
  dtsBase : Option Int
  randomAccessIndicator : Bool
deriving DecidableEq, Repr

/-- `muxerVariantMPEGTSSegment.writeH264` (lines 76-146), reduced to
the `pcrSendCounter` state and the emitted header fields: when the
counter is 0 a PCR (the input `pcr`, no offset) is attached and the
counter restarts at 3; the counter is decremented after every PES.
PTS — and DTS when it differs from PTS — carry the input timestamp
plus `pcrOffset`. -/
def segmentWriteH264 (pcrSendCounter : Nat) (pcr dts pts : Int) (idrPresent : Bool) :
    Nat × TSPesHeader :=
  let withPCR := pcrSendCounter == 0
  let counter1 := if withPCR then 3 else pcrSendCounter
  (counter1 - 1,
   { hasPCR := withPCR,
     pcr := if withPCR then some (base90kHz pcr) else none,
     ptsBase := base90kHz (pts + pcrOffset),
     dtsBase := if dts = pts then none else some (base90kHz (dts + pcrOffset)),
     randomAccessIndicator := idrPresent })

/-- The `pcrSendCounter` after `k` PES of a fresh segment (the Go
zero value of the counter is 0). -/
def segmentCounterAfter : Nat → Nat
  | 0 => 0
  | k + 1 => (segmentWriteH264 (segmentCounterAfter k) 0 0 0 false).1

theorem segmentCounterAfter_eq (k : Nat) :
    segmentCounterAfter k = (3 - k % 3) % 3 := by
  induction k with
  | zero => rfl
  | succ k ih =>
    have h3 : k % 3 = 0 ∨ k % 3 = 1 ∨ k % 3 = 2 := by omega
    rcases h3 with h | h | h <;>
      simp [segmentCounterAfter, segmentWriteH264, ih, h] <;> omega

theorem base90kHz_mono (a b : Int) (ha : 0 ≤ a) (hab : a ≤ b) :
    base90kHz a ≤ base90kHz b := by
  unfold base90kHz
  have h1 : (0:Int) ≤ a * 90000 := by positivity
  have h2 : a * 90000 ≤ b * 90000 := mul_le_mul_of_nonneg_right hab (by norm_num)
  rw [Int.tdiv_eq_ediv h1 (by norm_num),
    Int.tdiv_eq_ediv (le_trans h1 h2) (by norm_num)]
  exact Int.ediv_le_ediv (by norm_num) h2

/-- **C9**: in the MPEG-TS segment writer, a PCR is attached to
exactly one PES out of every three consecutive PES; every PES carries
PTS — and DTS when it differs from PTS — equal to the input timestamp
plus the 500 ms `pcrOffset` in 90 kHz units, while the PCR is written
without the offset; consequently the emitted PCR never exceeds the
emitted PTS/DTS as long as the caller's `pcr` clock does not run more
than `pcrOffset` ahead of the timestamps. -/
theorem c9_mpegts_pcr_pts (k c : Nat) (pcr dts pts : Int) (idr : Bool) :
    ((segmentWriteH264 (segmentCounterAfter k) pcr dts pts idr).2.hasPCR = true ↔
      k % 3 = 0) ∧
    ((if (segmentWriteH264 (segmentCounterAfter k) pcr dts pts idr).2.hasPCR then 1 else 0) +
     (if (segmentWriteH264 (segmentCounterAfter (k + 1)) pcr dts pts idr).2.hasPCR then 1 else 0) +
     (if (segmentWriteH264 (segmentCounterAfter (k + 2)) pcr dts pts idr).2.hasPCR then 1 else 0)
       = 1) ∧
    (segmentWriteH264 c pcr dts pts idr).2.ptsBase = base90kHz (pts + pcrOffset) ∧
    (segmentWriteH264 c pcr dts pts idr).2.dtsBase =
      (if dts = pts then none else some (base90kHz (dts + pcrOffset))) ∧
    ((segmentWriteH264 c pcr dts pts idr).2.hasPCR = true →
      (segmentWriteH264 c pcr dts pts idr).2.pcr = some (base90kHz pcr)) ∧
    (0 ≤ pcr → pcr ≤ pts + pcrOffset →
      base90kHz pcr ≤ (segmentWriteH264 c pcr dts pts idr).2.ptsBase) ∧
    (0 ≤ pcr → pcr ≤ dts + pcrOffset →
      ∀ d, (segmentWriteH264 c pcr dts pts idr).2.dtsBase = some d →
        base90kHz pcr ≤ d) := by
  have hflag : ∀ j : Nat,
      (segmentWriteH264 (segmentCounterAfter j) pcr dts pts idr).2.hasPCR = true ↔
        j % 3 = 0 := by
    intro j
    rw [segmentCounterAfter_eq]
    simp only [segmentWriteH264, beq_iff_eq]
    constructor
    · intro h; omega
    · intro h; omega
  refine ⟨hflag k, ?_, rfl, rfl, ?_, ?_, ?_⟩
  · have h0 := hflag k
    have h1 := hflag (k + 1)
    have h2 := hflag (k + 2)
    rcases Bool.eq_false_or_eq_true
        ((segmentWriteH264 (segmentCounterAfter k) pcr dts pts idr).2.hasPCR) with hb0 | hb0 <;>
    rcases Bool.eq_false_or_eq_true
        ((segmentWriteH264 (segmentCounterAfter (k + 1)) pcr dts pts idr).2.hasPCR) with hb1 | hb1 <;>
    rcases Bool.eq_false_or_eq_true
        ((segmentWriteH264 (segmentCounterAfter (k + 2)) pcr dts pts idr).2.hasPCR) with hb2 | hb2 <;>
      simp [hb0, hb1, hb2] at h0 h1 h2 ⊢ <;> omega
  · intro h
    simp only [segmentWriteH264] at h ⊢
    simp only [beq_iff_eq] at h ⊢
    rw [if_pos h]
  · intro hpos hle
    exact base90kHz_mono pcr (pts + pcrOffset) hpos hle
  · intro hpos hle d hd
    simp only [segmentWriteH264] at hd
    by_cases hdp : dts = pts
    · simp [hdp] at hd
    · rw [if_neg hdp] at hd
      have := Option.some.inj hd
      rw [← this]
      exact base90kHz_mono pcr (dts + pcrOffset) hpos hle

/-- **C9, witness**: a fresh segment (counter 0) and the write of an
access unit at `pts = dts = 1.2 s` with `pcr = 1 s`: the PCR is
attached (first of three), carries 90000 (no offset), and the PTS
carries `(1.2 s + 0.5 s) · 90000 = 153000 ≥ 90000`. -/
theorem c9_mpegts_pcr_pts_witness :
    ((segmentWriteH264 (segmentCounterAfter 0) 1000000000 1200000000 1200000000 true).2.hasPCR
      = true) ∧
    ((segmentWriteH264 0 1000000000 1200000000 1200000000 true).2.pcr = some 90000) ∧
    ((segmentWriteH264 0 1000000000 1200000000 1200000000 true).2.ptsBase = 153000) ∧
    (base90kHz 1000000000 ≤
      (segmentWriteH264 0 1000000000 1200000000 1200000000 true).2.ptsBase) := by
  have h := c9_mpegts_pcr_pts 0 0 1000000000 1200000000 1200000000 true
  refine ⟨(h.1).mpr rfl, ?_, ?_, ?_⟩
  · rw [h.2.2.2.2.1 (by decide)]
    decide
  · rw [h.2.2.1]
    decide
  · exact h.2.2.2.2.2.1 (by decide) (by decide)

/-- Invariant I2 / P2 of the spec: the stream exists exactly when the
source is ready. -/
def pathInv (s : PathState) : Prop :=
  s.sourceReady = s.stream.isSome

theorem sourceSetNotReady_fields (s : PathState) :
    (sourceSetNotReady s).1.sourceReady = false ∧ (sourceSetNotReady s).1.stream = none :=
  ⟨rfl, rfl⟩

theorem handleReaderSetupPlayPost_fields (s : PathState) (req : PathSetupPlayReq) :
    (handleReaderSetupPlayPost s req).1.sourceReady = s.sourceReady ∧
    (handleReaderSetupPlayPost s req).1.stream = s.stream := by
  simp only [handleReaderSetupPlayPost]
  split <;> exact ⟨rfl, rfl⟩

theorem drainSetupRequests_fields (l : List PathSetupPlayReq) :
    ∀ s : PathState, (drainSetupRequests s l).1.sourceReady = s.sourceReady ∧
      (drainSetupRequests s l).1.stream = s.stream := by
  induction l with
  | nil => intro s; exact ⟨rfl, rfl⟩
  | cons req rest ih =>
    intro s
    have h1 := handleReaderSetupPlayPost_fields s req
    have h3 := ih (handleReaderSetupPlayPost s req).1
    simp only [drainSetupRequests]
    exact ⟨h3.1.trans h1.1, h3.2.trans h1.2⟩

theorem sourceSetReady_fields (s : PathState) (tracks : Nat) :
    (sourceSetReady s tracks).1.sourceReady = true ∧
    (sourceSetReady s tracks).1.stream = some ⟨tracks⟩ := by
  simp only [sourceSetReady, onDemandScheduleClose]
  split
  · split
    · split
      · exact ⟨(drainSetupRequests_fields _ _).1, (drainSetupRequests_fields _ _).2⟩
      · exact ⟨(drainSetupRequests_fields _ _).1, (drainSetupRequests_fields _ _).2⟩
    · split
      · exact ⟨(drainSetupRequests_fields _ _).1, (drainSetupRequests_fields _ _).2⟩
      · exact ⟨(drainSetupRequests_fields _ _).1, (drainSetupRequests_fields _ _).2⟩
  · split
    · exact ⟨rfl, rfl⟩
    · exact ⟨rfl, rfl⟩

theorem sourceSetReady_inv (s : PathState) (tracks : Nat) :
    pathInv (sourceSetReady s tracks).1 := by
  have h := sourceSetReady_fields s tracks
  simp [pathInv, h.1, h.2]

theorem onDemandCloseSource_inv (s : PathState) (h : pathInv s) :
    pathInv (onDemandCloseSource s).1 := by
  simp only [pathInv] at h ⊢
  simp only [onDemandCloseSource]
  repeat' split
  all_goals
    simp_all [(sourceSetNotReady_fields _).1, (sourceSetNotReady_fields _).2]

theorem sourceSetNotReady_more (s : PathState) :
    (sourceSetNotReady s).1.source = s.source ∧
    (sourceSetNotReady s).1.onDemandState = s.onDemandState ∧
    (sourceSetNotReady s).1.onDemandCmd = s.onDemandCmd ∧
    (sourceSetNotReady s).1.describeRequests = s.describeRequests ∧
    (sourceSetNotReady s).1.setupPlayRequests = s.setupPlayRequests ∧
    (sourceSetNotReady s).1.readers = [] :=
  ⟨rfl, rfl, rfl, rfl, rfl, rfl⟩

theorem onDemandCloseSource_spec (s : PathState)
    (hinv : s.sourceReady = s.stream.isSome)
    (hsrc : s.source = none → s.sourceReady = false) :
    (onDemandCloseSource s).1.source = none ∧
    (onDemandCloseSource s).1.onDemandState = .initial ∧
    (onDemandCloseSource s).1.sourceReady = false ∧
    (onDemandCloseSource s).1.stream = none ∧
    (onDemandCloseSource s).1.describeRequests = s.describeRequests ∧
    (onDemandCloseSource s).1.setupPlayRequests = s.setupPlayRequests ∧
    (∀ src, s.source = some src →
      PathEvent.closeSource src ∈ (onDemandCloseSource s).2) ∧
    (hasStaticSource s.conf = false → s.onDemandCmd = true →
      PathEvent.stopOnDemandCmd ∈ (onDemandCloseSource s).2) := by
  simp only [onDemandCloseSource]
  repeat' split
  all_goals
    simp_all [(sourceSetNotReady_fields _).1, (sourceSetNotReady_fields _).2,
      (sourceSetNotReady_more _).1, (sourceSetNotReady_more _).2.1,
      (sourceSetNotReady_more _).2.2.1, (sourceSetNotReady_more _).2.2.2.1,
      (sourceSetNotReady_more _).2.2.2.2.1, Option.isSome_iff_exists]
  all_goals (rcases hss : s.stream with _ | x <;> simp_all)

theorem onDemandStartSource_fields (s : PathState) :
    (onDemandStartSource s).1.sourceReady = s.sourceReady ∧
    (onDemandStartSource s).1.stream = s.stream := by
  rw [onDemandStartSource]
  by_cases hs : hasStaticSource s.conf
  · simp [hs, staticSourceCreate]
  · simp [hs]

theorem doPublisherRemove_inv (s : PathState) (h : pathInv s) :
    pathInv (doPublisherRemove s).1 := by
  simp only [doPublisherRemove]
  repeat' split
  · have := onDemandCloseSource_inv s h
    simpa [pathInv] using this
  · simp [pathInv, (sourceSetNotReady_fields _).1, (sourceSetNotReady_fields _).2]
  · simpa [pathInv] using h

theorem handleDescribe_inv (s : PathState) (req : PathDescribeReq) (h : pathInv s) :
    pathInv (handleDescribe s req).1 := by
  simp only [pathInv] at h ⊢
  simp only [handleDescribe]
  repeat' split
  all_goals
    simp_all [(onDemandStartSource_fields _).1, (onDemandStartSource_fields _).2]

theorem handlePublisherAnnounce_inv (s : PathState) (author : Nat) (h : pathInv s) :
    pathInv (handlePublisherAnnounce s author).1 := by
  simp only [handlePublisherAnnounce]
  repeat' split
  · simpa [pathInv] using h
  · simpa [pathInv] using h
  · have := doPublisherRemove_inv s h
    simpa [pathInv] using this
  · simpa [pathInv] using h

theorem handlePublisherRecord_inv (s : PathState) (author tracks : Nat) (h : pathInv s) :
    pathInv (handlePublisherRecord s author tracks).1 := by
  simp only [handlePublisherRecord]
  split
  · simpa [pathInv] using h
  · simpa [pathInv] using sourceSetReady_inv s tracks

theorem handlePublisherPause_inv (s : PathState) (author : Nat) (h : pathInv s) :
    pathInv (handlePublisherPause s author).1 := by
  simp only [handlePublisherPause]
  repeat' split
  · have := onDemandCloseSource_inv s h
    simpa [pathInv] using this
  · simp [pathInv, (sourceSetNotReady_fields _).1, (sourceSetNotReady_fields _).2]
  · simpa [pathInv] using h

theorem handleReaderRemove_fields (s : PathState) (author : Nat) :
    (handleReaderRemove s author).1.sourceReady = s.sourceReady ∧
    (handleReaderRemove s author).1.stream = s.stream := by
  simp only [handleReaderRemove, doReaderRemove, onDemandScheduleClose]
  repeat' split
  all_goals exact ⟨rfl, rfl⟩

theorem handleReaderSetupPlay_inv (s : PathState) (req : PathSetupPlayReq) (h : pathInv s) :
    pathInv (handleReaderSetupPlay s req).1 := by
  simp only [pathInv] at h ⊢
  simp only [handleReaderSetupPlay]
  repeat' split
  all_goals
    simp_all [(onDemandStartSource_fields _).1, (onDemandStartSource_fields _).2,
      (handleReaderSetupPlayPost_fields _ _).1, (handleReaderSetupPlayPost_fields _ _).2]

theorem handleSourceStaticSetReady_inv (s : PathState) (srcId tracks : Nat) (h : pathInv s) :
    pathInv (handleSourceStaticSetReady s srcId tracks).1 := by
  simp only [handleSourceStaticSetReady]
  split
  · simpa [pathInv] using sourceSetReady_inv s tracks
  · simpa [pathInv] using h

theorem handleSourceStaticSetNotReady_inv (s : PathState) (srcId : Nat) (h : pathInv s) :
    pathInv (handleSourceStaticSetNotReady s srcId).1 := by
  simp only [handleSourceStaticSetNotReady]
  repeat' split
  · have := onDemandCloseSource_inv s h
    simpa [pathInv] using this
  · simp [pathInv, (sourceSetNotReady_fields _).1, (sourceSetNotReady_fields _).2]
  · simpa [pathInv] using h

theorem handleOnDemandReadyTimerFire_inv (s : PathState) (h : pathInv s) :
    pathInv (handleOnDemandReadyTimerFire s).1 := by
  simp only [handleOnDemandReadyTimerFire]
  have h2 : pathInv { s with describeRequests := [], setupPlayRequests := [] } := h
  have := onDemandCloseSource_inv { s with describeRequests := [], setupPlayRequests := [] } h2
  simpa [pathInv] using this

theorem pathStep_inv (s : PathState) (r : PathReq) (h : pathInv s) :
    pathInv (pathStep s r).1 := by
  cases r with
  | onDemandReadyTimerFire => exact handleOnDemandReadyTimerFire_inv s h
  | onDemandCloseTimerFire => exact onDemandCloseSource_inv s h
  | sourceStaticSetReady srcId tracks => exact handleSourceStaticSetReady_inv s srcId tracks h
  | sourceStaticSetNotReady srcId => exact handleSourceStaticSetNotReady_inv s srcId h
  | describe req => exact handleDescribe_inv s req h
  | publisherRemove author =>
    simp only [pathStep, handlePublisherRemove]
    split
    · exact doPublisherRemove_inv s h
    · exact h
  | publisherAnnounce author => exact handlePublisherAnnounce_inv s author h
  | publisherRecord author tracks => exact handlePublisherRecord_inv s author tracks h
  | publisherPause author => exact handlePublisherPause_inv s author h
  | readerRemove author =>
    have := handleReaderRemove_fields s author
    simp only [pathInv] at h ⊢
    simp only [pathStep]
    rw [this.1, this.2, h]
  | readerSetupPlay req => exact handleReaderSetupPlay_inv s req h
  | readerPlay author => exact h
  | readerPause author =>
    simp only [pathStep, handleReaderPause]
    split
    · exact h
    · exact h
  | apiPathsList => exact h

theorem pathInit_inv (c : PathConf) (name : String) : pathInv (pathInit c name).1 := by
  simp only [pathInit, staticSourceCreate, pathInv]
  repeat' split
  all_goals rfl

theorem pathRun_inv (reqs : List PathReq) :
    ∀ s : PathState, pathInv s → pathInv (pathRun s reqs) := by
  induction reqs with
  | nil => intro s h; exact h
  | cons r rest ih =>
    intro s h
    exact ih (pathStep s r).1 (pathStep_inv s r h)

/-- **C2**: in every state reached from path creation by handling
requests at the path's serialization point, `sourceReady` is true if
and only if the path's stream is non-nil: the stream is created exactly
by `sourceSetReady` and destroyed exactly by `sourceSetNotReady`. -/
theorem c2_sourceReady_iff_stream (c : PathConf) (name : String) (reqs : List PathReq) :
    (pathRun (pathInit c name).1 reqs).sourceReady = true ↔
      (pathRun (pathInit c name).1 reqs).stream ≠ none := by
  have h := pathRun_inv reqs (pathInit c name).1 (pathInit_inv c name)
  simp only [pathInv] at h
  rw [h]
  cases (pathRun (pathInit c name).1 reqs).stream <;> simp

/-- A path configured with an on-demand static RTSP source, just after
creation: the static source is not started until a reader appears, so
the source slot is empty. -/
def onDemandStaticConf : PathConf :=
  { source := "rtsp://upstream:554/cam", sourceOnDemand := true,
    disablePublisherOverride := true, sourceRedirect := "", fallback := "",
    runOnDemand := "", runOnReady := "" }

def onDemandStaticState : PathState := (pathInit onDemandStaticConf "mypath").1

/-- **C1, counterexample**: a path configured with a static source does
NOT reject every inbound publisher.  On an on-demand static path whose
source slot is still empty, `handlePublisherAnnounce` accepts the
announce and installs the publisher in the source slot. -/
theorem c1_counterexample :
    hasStaticSource onDemandStaticConf = true ∧
    (handlePublisherAnnounce onDemandStaticState 42).2 =
      [PathEvent.announceRes { err := none }] ∧
    (handlePublisherAnnounce onDemandStaticState 42).1.source =
      some (.publisher 42) := by
  refine ⟨by decide, rfl, rfl⟩

/-- **C1, amended**: publisher admission at the path serialization
point.  When the source slot is occupied: a static-source configuration
rejects the announce, `disablePublisherOverride = true` rejects it with
the already-publishing error, and otherwise the incumbent source is
closed and the new publisher accepted.  When the source slot is empty —
which is the state of an on-demand static path whose source has not
been started — the publisher is accepted unconditionally. -/
theorem c1_publisher_admission (s : PathState) (author : Nat) :
    (∀ src, s.source = some src →
      (hasStaticSource s.conf = true →
        (handlePublisherAnnounce s author).1 = s ∧
        (handlePublisherAnnounce s author).2 =
          [.announceRes { err := some (.generic
            ("path '" ++ s.name ++ "' is assigned to a static source")) }]) ∧
      (hasStaticSource s.conf = false → s.conf.disablePublisherOverride = true →
        (handlePublisherAnnounce s author).1 = s ∧
        (handlePublisherAnnounce s author).2 =
          [.announceRes { err := some (.generic
            ("another publisher is already publishing to path '" ++ s.name ++ "'")) }]) ∧
      (hasStaticSource s.conf = false → s.conf.disablePublisherOverride = false →
        (handlePublisherAnnounce s author).1.source = some (.publisher author) ∧
        PathEvent.closeSource src ∈ (handlePublisherAnnounce s author).2 ∧
        PathEvent.announceRes { err := none } ∈ (handlePublisherAnnounce s author).2)) ∧
    (s.source = none →
      (handlePublisherAnnounce s author).1 =
        { s with source := some (.publisher author) } ∧
      (handlePublisherAnnounce s author).2 = [.announceRes { err := none }]) := by
  constructor
  · intro src hsrc
    refine ⟨?_, ?_, ?_⟩
    · intro hstat
      simp [handlePublisherAnnounce, hsrc, hstat]
    · intro hstat hov
      simp [handlePublisherAnnounce, hsrc, hstat, hov]
    · intro hstat hov
      simp [handlePublisherAnnounce, hsrc, hstat, hov]
  · intro hsrc
    simp [handlePublisherAnnounce, hsrc]

/-- A path currently published by publisher 7 and ready. -/
def publisherPathConf : PathConf :=
  { source := "publisher", sourceOnDemand := false,
    disablePublisherOverride := false, sourceRedirect := "", fallback := "",
    runOnDemand := "", runOnReady := "" }

def publisherHeldState : PathState :=
  { (pathInit publisherPathConf "live").1 with source := some (.publisher 7) }

/-- **C1, witness**: the amended admission theorem applied to a held
publisher slot (all three occupied cases) and to an empty slot. -/
theorem c1_publisher_admission_witness :
    ((handlePublisherAnnounce onDemandStaticState 42).1 =
      { onDemandStaticState with source := some (.publisher 42) } ∧
     (handlePublisherAnnounce onDemandStaticState 42).2 =
      [.announceRes { err := none }]) ∧
    ((handlePublisherAnnounce publisherHeldState 9).1.source =
      some (.publisher 9) ∧
     PathEvent.closeSource (.publisher 7) ∈ (handlePublisherAnnounce publisherHeldState 9).2 ∧
     PathEvent.announceRes { err := none } ∈ (handlePublisherAnnounce publisherHeldState 9).2) := by
  constructor
  · exact (c1_publisher_admission onDemandStaticState 42).2 rfl
  · exact ((c1_publisher_admission publisherHeldState 9).1 (.publisher 7) rfl).2.2
      (by decide) (by decide)

theorem readersErase_lookup_none (l : List (Nat × PathReaderState)) (r : Nat) :
    readersLookup l r = none → readersErase l r = l := by
  induction l with
  | nil => intro _; rfl
  | cons kv rest ih =>
    intro h
    obtain ⟨k, v⟩ := kv
    simp only [readersLookup] at h
    simp only [readersErase]
    split
    · next heq => simp [heq] at h
    · next heq =>
      rw [ih (by simpa [heq] using h)]

theorem readersLookup_set (l : List (Nat × PathReaderState)) (r : Nat) (st : PathReaderState) :
    readersLookup (readersSet l r st) r = some st := by
  induction l with
  | nil => simp [readersSet, readersLookup]
  | cons kv rest ih =>
    obtain ⟨k, v⟩ := kv
    simp only [readersSet]
    split
    · next heq => simp [readersLookup, heq]
    · next heq => simp [readersLookup, heq, ih]

/-- **C4**: when the on-demand ready timer fires on a path in
`WaitingReady`, every queued describe and every queued setup/play
receives the error "source of path '<name>' has timed out", both
queues become empty, the source is closed (its `close()` is called when
the slot is occupied, and a running `runOnDemand` command is stopped on
non-static paths) and the on-demand state returns to `Initial`. -/
theorem c4_ready_timer_timeout (s : PathState)
    (_hstate : s.onDemandState = .waitingReady)
    (hinv : pathInv s)
    (hsrc : s.source = none → s.sourceReady = false) :
    (∀ req ∈ s.describeRequests,
      PathEvent.describeRes req.rid
        { err := some (.generic ("source of path '" ++ s.name ++ "' has timed out")) } ∈
        (pathStep s .onDemandReadyTimerFire).2) ∧
    (∀ req ∈ s.setupPlayRequests,
      PathEvent.setupPlayRes req.rid
        { err := some (.generic ("source of path '" ++ s.name ++ "' has timed out")) } ∈
        (pathStep s .onDemandReadyTimerFire).2) ∧
    (pathStep s .onDemandReadyTimerFire).1.describeRequests = [] ∧
    (pathStep s .onDemandReadyTimerFire).1.setupPlayRequests = [] ∧
    (pathStep s .onDemandReadyTimerFire).1.onDemandState = .initial ∧
    (pathStep s .onDemandReadyTimerFire).1.source = none ∧
    (∀ src, s.source = some src →
      PathEvent.closeSource src ∈ (pathStep s .onDemandReadyTimerFire).2) ∧
    (hasStaticSource s.conf = false → s.onDemandCmd = true →
      PathEvent.stopOnDemandCmd ∈ (pathStep s .onDemandReadyTimerFire).2) := by
  have hspec := onDemandCloseSource_spec
    { s with describeRequests := [], setupPlayRequests := [] } hinv hsrc
  simp only [pathStep, handleOnDemandReadyTimerFire]
  refine ⟨?_, ?_, ?_, ?_, ?_, ?_, ?_, ?_⟩
  · intro req hreq
    exact List.mem_append_left _ (List.mem_append_left _ (List.mem_map_of_mem _ hreq))
  · intro req hreq
    exact List.mem_append_left _
      (List.mem_append_right _ (List.mem_map_of_mem _ hreq))
  · exact hspec.2.2.2.2.1
  · exact hspec.2.2.2.2.2.1
  · exact hspec.2.1
  · exact hspec.1
  · intro src h
    exact List.mem_append_right _ (hspec.2.2.2.2.2.2.1 src h)
  · intro h1 h2
    exact List.mem_append_right _ (hspec.2.2.2.2.2.2.2 h1 h2)

/-- A publisher path with a `runOnDemand` hook, waiting for the source
to become ready, with one queued describe and one queued setup. -/
def runOnDemandConf : PathConf :=
  { source := "publisher", sourceOnDemand := false,
    disablePublisherOverride := false, sourceRedirect := "", fallback := "",
    runOnDemand := "ffmpeg -i input -f rtsp out", runOnReady := "" }

def waitingReadyState : PathState :=
  { (pathInit runOnDemandConf "proxied").1 with
      onDemandState := .waitingReady, onDemandCmd := true,
      onDemandReadyTimerArmed := true,
      describeRequests := [⟨1, ⟨"rtsp", "", "h"⟩⟩],
      setupPlayRequests := [⟨2, 5⟩] }

/-- **C4, witness**: the timeout theorem applied to `waitingReadyState`. -/
theorem c4_ready_timer_timeout_witness :
    PathEvent.describeRes 1
      { err := some (.generic "source of path 'proxied' has timed out") } ∈
      (pathStep waitingReadyState .onDemandReadyTimerFire).2 ∧
    PathEvent.setupPlayRes 2
      { err := some (.generic "source of path 'proxied' has timed out") } ∈
      (pathStep waitingReadyState .onDemandReadyTimerFire).2 ∧
    (pathStep waitingReadyState .onDemandReadyTimerFire).1.describeRequests = [] ∧
    (pathStep waitingReadyState .onDemandReadyTimerFire).1.setupPlayRequests = [] ∧
    (pathStep waitingReadyState .onDemandReadyTimerFire).1.onDemandState = .initial ∧
    PathEvent.stopOnDemandCmd ∈ (pathStep waitingReadyState .onDemandReadyTimerFire).2 := by
  have h := c4_ready_timer_timeout waitingReadyState rfl rfl (fun _ => rfl)
  refine ⟨?_, ?_, h.2.2.1, h.2.2.2.1, h.2.2.2.2.1, ?_⟩
  · have := h.1 ⟨1, ⟨"rtsp", "", "h"⟩⟩ (by decide)
    simpa using this
  · have := h.2.1 ⟨2, 5⟩ (by decide)
    simpa using this
  · exact h.2.2.2.2.2.2.2 rfl rfl

/-- **C5**: the on-demand close lifecycle.  (i) Removing the last
reader in state `Ready` arms the close timer and moves to `Closing`;
(ii) a reader arriving in `Closing` cancels the close timer and moves
back to `Ready`; (iii) when the close timer fires, the source is
closed, the stream is unset (and `sourceReady` becomes false) and the
state returns to `Initial`. -/
theorem c5_on_demand_close_lifecycle (s : PathState) (author : Nat) (req : PathSetupPlayReq) :
    (isOnDemand s.conf = true → s.onDemandState = .ready →
      readersErase s.readers author = [] →
      (handleReaderRemove s author).1.onDemandState = .closing ∧
      (handleReaderRemove s author).1.onDemandCloseTimerArmed = true) ∧
    (isOnDemand s.conf = true → s.onDemandState = .closing →
      (handleReaderSetupPlayPost s req).1.onDemandState = .ready ∧
      (handleReaderSetupPlayPost s req).1.onDemandCloseTimerArmed = false ∧
      readersLookup (handleReaderSetupPlayPost s req).1.readers req.author =
        some .prePlay) ∧
    (s.onDemandState = .closing → pathInv s →
      (s.source = none → s.sourceReady = false) →
      (pathStep s .onDemandCloseTimerFire).1.onDemandState = .initial ∧
      (pathStep s .onDemandCloseTimerFire).1.sourceReady = false ∧
      (pathStep s .onDemandCloseTimerFire).1.stream = none ∧
      (pathStep s .onDemandCloseTimerFire).1.source = none ∧
      (∀ src, s.source = some src →
        PathEvent.closeSource src ∈ (pathStep s .onDemandCloseTimerFire).2)) := by
  refine ⟨?_, ?_, ?_⟩
  · intro hod hstate herase
    simp only [handleReaderRemove, doReaderRemove]
    by_cases hl : (readersLookup s.readers author).isSome
    · rw [if_pos hl]
      simp [herase, hod, hstate, onDemandScheduleClose]
    · rw [if_neg hl]
      have he2 : readersErase s.readers author = s.readers :=
        readersErase_lookup_none _ _ (by simpa using hl)
      have hr : s.readers = [] := by rw [← he2, herase]
      simp [hr, hod, hstate, onDemandScheduleClose]
  · intro hod hstate
    simp only [handleReaderSetupPlayPost]
    rw [if_pos (by exact ⟨by simpa using hod, hstate⟩)]
    exact ⟨rfl, rfl, readersLookup_set _ _ _⟩
  · intro hstate hinv hsrc
    have hspec := onDemandCloseSource_spec s hinv hsrc
    exact ⟨hspec.2.1, hspec.2.2.1, hspec.2.2.2.1, hspec.1,
      hspec.2.2.2.2.2.2.1⟩

/-- An on-demand static path in state `Ready` with its static source
up, one playing reader, and the stream present. -/
def onDemandReadyState : PathState :=
  { (pathInit onDemandStaticConf "mypath").1 with
      source := some (.staticSource 0), sourceReady := true,
      stream := some ⟨1⟩, readers := [(4, .play)],
      onDemandState := .ready }

/-- The same path in `Closing` with no readers and the close timer armed. -/
def onDemandClosingState : PathState :=
  { onDemandReadyState with
      readers := [], onDemandState := .closing, onDemandCloseTimerArmed := true }

/-- **C5, witness**: the three lifecycle transitions at concrete states. -/
theorem c5_on_demand_close_lifecycle_witness :
    ((handleReaderRemove onDemandReadyState 4).1.onDemandState = .closing ∧
     (handleReaderRemove onDemandReadyState 4).1.onDemandCloseTimerArmed = true) ∧
    ((handleReaderSetupPlayPost onDemandClosingState ⟨9, 6⟩).1.onDemandState = .ready ∧
     (handleReaderSetupPlayPost onDemandClosingState ⟨9, 6⟩).1.onDemandCloseTimerArmed = false) ∧
    ((pathStep onDemandClosingState .onDemandCloseTimerFire).1.onDemandState = .initial ∧
     (pathStep onDemandClosingState .onDemandCloseTimerFire).1.sourceReady = false ∧
     (pathStep onDemandClosingState .onDemandCloseTimerFire).1.stream = none ∧
     PathEvent.closeSource (.staticSource 0) ∈
       (pathStep onDemandClosingState .onDemandCloseTimerFire).2) := by
  refine ⟨?_, ?_, ?_⟩
  · exact (c5_on_demand_close_lifecycle onDemandReadyState 4 ⟨9, 6⟩).1
      (by decide) rfl (by decide)
  · have h := (c5_on_demand_close_lifecycle onDemandClosingState 4 ⟨9, 6⟩).2.1
      (by decide) rfl
    exact ⟨h.1, h.2.1⟩
  · have h := (c5_on_demand_close_lifecycle onDemandClosingState 4 ⟨9, 6⟩).2.2
      rfl rfl (by intro h2; exact absurd h2 (by decide))
    exact ⟨h.1, h.2.1, h.2.2.1, h.2.2.2.2 (.staticSource 0) rfl⟩

/-- The externally visible decision taken for one describe request:
either a reply (with the full reply struct) or queueing (recording
whether the on-demand source was started by this request). -/
inductive DescribeOutcome
  | reply (res : PathDescribeRes)
  | queued (sourceStarted : Bool)
deriving DecidableEq, Repr

/-- The decision actually taken by `handleDescribe`: the reply sent to
the request's reply channel, or, when none is sent, whether a source
start (static source creation or `runOnDemand` launch) was triggered. -/
def describeOutcome (s : PathState) (req : PathDescribeReq) : DescribeOutcome :=
  match (handleDescribe s req).2.filterMap (fun e => match e with
      | PathEvent.describeRes rid res => if rid = req.rid then some res else none
      | _ => none) with
  | res :: _ => .reply res
  | [] => .queued ((handleDescribe s req).2.any (fun e => match e with
      | PathEvent.startStaticSource _ => true
      | PathEvent.startOnDemandCmd => true
      | _ => false))

/-- The describe resolution of the claim, written as its five-step
ordered case analysis: (1) redirect sentinel → configured redirect URL;
(2) source ready → the stream; (3) on-demand → queue, starting the
source when the state is `Initial`; (4) fallback configured → fallback
URL, a leading "/" rewritten to the caller's scheme/user/host;
(5) otherwise the no-one-publishing error. -/
def describeSpec (s : PathState) (req : PathDescribeReq) : DescribeOutcome :=
  if s.source = some .redirect then
    .reply { redirect := s.conf.sourceRedirect }
  else if s.sourceReady then
    .reply { stream := s.stream }
  else if isOnDemand s.conf then
    .queued (s.onDemandState = .initial)
  else if s.conf.fallback ≠ "" then
    .reply { redirect :=
      if strStarts s.conf.fallback "/" then urlString req.url s.conf.fallback
      else s.conf.fallback }
  else
    .reply { err := some (.noOnePublishing s.name) }

/-- **C3**: the reply to every describe request follows exactly the
ordered five-case analysis of the claim, and in the queueing case (and
only there) the request is appended to the path's describe queue. -/
theorem c3_describe_resolution (s : PathState) (req : PathDescribeReq) :
    describeOutcome s req = describeSpec s req ∧
    (handleDescribe s req).1.describeRequests =
      (if s.source ≠ some .redirect ∧ s.sourceReady = false ∧ isOnDemand s.conf = true
       then s.describeRequests ++ [req]
       else s.describeRequests) := by
  by_cases h1 : s.source = some .redirect
  · exact ⟨by simp [describeOutcome, describeSpec, handleDescribe, h1],
      by simp [handleDescribe, h1]⟩
  by_cases h2 : s.sourceReady
  · exact ⟨by simp [describeOutcome, describeSpec, handleDescribe, h1, h2],
      by simp [handleDescribe, h1, h2]⟩
  by_cases h3 : isOnDemand s.conf
  · by_cases h4 : s.onDemandState = .initial
    · by_cases h5 : hasStaticSource s.conf
      · refine ⟨?_, ?_⟩
        · simp [describeOutcome, describeSpec, handleDescribe, h1, h2, h3, h4,
            onDemandStartSource, staticSourceCreate, h5]
        · simp [handleDescribe, h1, h2, h3, h4,
            onDemandStartSource, staticSourceCreate, h5]
      · refine ⟨?_, ?_⟩
        · simp [describeOutcome, describeSpec, handleDescribe, h1, h2, h3, h4,
            onDemandStartSource, staticSourceCreate, h5]
        · simp [handleDescribe, h1, h2, h3, h4,
            onDemandStartSource, staticSourceCreate, h5]
    · refine ⟨?_, ?_⟩
      · simp [describeOutcome, describeSpec, handleDescribe, h1, h2, h3, h4]
      · simp [handleDescribe, h1, h2, h3, h4]
  by_cases h6 : s.conf.fallback = ""
  · exact ⟨by simp [describeOutcome, describeSpec, handleDescribe, h1, h2, h3, h6],
      by simp [handleDescribe, h1, h2, h3, h6]⟩
  · exact ⟨by simp [describeOutcome, describeSpec, handleDescribe, h1, h2, h3, h6],
      by simp [handleDescribe, h1, h2, h3, h6]⟩

/-- **C10**: a record (publisherStart) request from a publisher that no
longer holds the source slot is rejected with exactly the
"publisher is not assigned to this path anymore" error and the path
state is completely unchanged; when the requester is the current
source, a stream with the announced tracks is created, the path goes
ready, and the stream is returned. -/
theorem c10_publisher_record (s : PathState) (author tracks : Nat) :
    (s.source ≠ some (.publisher author) →
      (handlePublisherRecord s author tracks).1 = s ∧
      (handlePublisherRecord s author tracks).2 =
        [.recordRes { err := some (.generic
          "publisher is not assigned to this path anymore") }]) ∧
    (s.source = some (.publisher author) →
      (handlePublisherRecord s author tracks).1.sourceReady = true ∧
      (handlePublisherRecord s author tracks).1.stream = some ⟨tracks⟩ ∧
      PathEvent.recordRes { stream := some ⟨tracks⟩, err := none } ∈
        (handlePublisherRecord s author tracks).2 ∧
      PathEvent.publisherAccepted author tracks ∈
        (handlePublisherRecord s author tracks).2) := by
  constructor
  · intro hne
    simp [handlePublisherRecord, hne]
  · intro hsrc
    have hf := sourceSetReady_fields s tracks
    have hne : ¬s.source ≠ some (.publisher author) := by simp [hsrc]
    simp only [handlePublisherRecord, if_neg hne]
    refine ⟨hf.1, hf.2, ?_, ?_⟩
    · rw [hf.2]
      simp
    · simp

/-- **C10, witness**: the record theorem applied to a stranger
(publisher 8, while publisher 7 holds the slot) and to the incumbent
publisher 7. -/
theorem c10_publisher_record_witness :
    ((handlePublisherRecord publisherHeldState 8 2).1 = publisherHeldState ∧
     (handlePublisherRecord publisherHeldState 8 2).2 =
       [.recordRes { err := some (.generic
         "publisher is not assigned to this path anymore") }]) ∧
    ((handlePublisherRecord publisherHeldState 7 2).1.sourceReady = true ∧
     (handlePublisherRecord publisherHeldState 7 2).1.stream = some ⟨2⟩) := by
  constructor
  · exact (c10_publisher_record publisherHeldState 8 2).1 (by decide)
  · have h := (c10_publisher_record publisherHeldState 7 2).2 rfl
    exact ⟨h.1, h.2.1⟩

end RSS
